import Mathlib

/-!
Shallow embedding of the DGraph CSV ingestion pipeline
(`src/data_parser.py`, `DGraphCSVLoader`) and the interactive CLI
(`src/client.py`, `main`), with proofs checking the design-spec claims.

Modelling conventions:
* A pandas row becomes a structure; a Python numeric coercion that can
  raise (`int(...)`, `float(...)`) becomes an `Option` field holding the
  parse result (`none` = the coercion raised `ValueError`).
* The graph service is a deterministic state `Svc`: it assigns fresh
  uids from a counter and records every issued mutation in order, and a
  `log` list records logger calls.
* A mutation's JSON dict becomes `MutData := List (String × FVal)`,
  with nested dicts flattened into dedicated constructors
  (`FVal.uidRef`, `FVal.point`).
* An uncaught exception escaping a loader becomes `LoadResult.err`.
-/

/-- One field value inside a mutation's JSON object. `uidRef u` stands
for the nested dict `\x7b"uid": u\x7d`; `point lon lat` stands for the GeoJSON
dict `\x7b"type": "Point", "coordinates": [lon, lat]\x7d`. -/
inductive FVal where
  | s : String → FVal
  | i : Int → FVal
  | q : Rat → FVal
  | b : Bool → FVal
  | point : Rat → Rat → FVal
  | uidRef : String → FVal
deriving DecidableEq, Repr

/-- The top-level JSON object passed to `txn.mutate(set_obj=...)`. -/
abbrev MutData := List (String × FVal)

/-- State of the graph service plus the logger: the uid counter, the
mutations issued so far (in order), and the log lines. -/
structure Svc where
  nextUid : Nat
  muts : List MutData
  log : List String
deriving DecidableEq, Repr

def Svc.init : Svc := ⟨0, [], []⟩

/-- The uid dgraph assigns to the n-th created node.  The real
service's uid strings are opaque and fresh; the model uses an
`0x`-prefixed encoding whose injectivity is immediate. -/
def freshUid (n : Nat) : String := "0x" ++ String.mk (List.replicate n 'f')

/-- Model of `DGraphCSVLoader._create_mutation` in the success model: issue the
mutation, return the assigned uid.  (Per-call transaction discipline is
modelled separately by `createMutationTrace`.) -/
def createMutation (s : Svc) (data : MutData) : String × Svc :=
  (freshUid s.nextUid,
   { s with nextUid := s.nextUid + 1, muts := s.muts ++ [data] })

def Svc.logged (s : Svc) (msg : String) : Svc :=
  { s with log := s.log ++ [msg] }

/-- Python dict used as a key→uid mapping, as an association list. -/
abbrev UidMap := List (String × String)

/-- Python `m[k] = v` (insert or overwrite). -/
def aset (m : UidMap) (k v : String) : UidMap :=
  if m.any (fun p => p.1 = k) then
    m.map (fun p => if p.1 = k then (k, v) else p)
  else m ++ [(k, v)]

/-- Python `k in m` (membership test on the dict). -/
def amem (m : UidMap) (k : String) : Bool := m.any (fun p => p.1 = k)

/-- Python `m[k]`, with `none` when the lookup would raise `KeyError`. -/
def aget? (m : UidMap) (k : String) : Option String :=
  (m.find? (fun p => p.1 = k)).map (fun p => p.2)

/-- Result of a loader call that can let an exception escape: `err`
carries the service state at the moment the exception propagated. -/
inductive LoadResult (α : Type) where
  | ok : α → Svc → LoadResult α
  | err : Svc → LoadResult α
deriving DecidableEq, Repr

/-! ## Numeric parsing and geo strings -/

/-- Value of a nonempty all-digit numeral; `none` otherwise. -/
def digitsVal? (l : List Char) : Option Nat :=
  if l.isEmpty then none
  else l.foldl (fun acc c =>
    acc.bind (fun n => if c.isDigit then some (10 * n + (c.toNat - 48)) else none)) (some 0)

/-- A decimal integer numeral with optional sign. -/
def intChars? : List Char → Option Int
  | '-' :: rest => (digitsVal? rest).map (fun n => -(n : Int))
  | '+' :: rest => (digitsVal? rest).map (fun n => (n : Int))
  | l => (digitsVal? l).map (fun n => (n : Int))

/-- Python `str.split(sep)` for a one-character separator, over the
character list. -/
def splitOnChar (c : Char) : List Char → List (List Char)
  | [] => [[]]
  | x :: xs =>
    match splitOnChar c xs with
    | [] => [[]]
    | y :: ys => if x = c then [] :: y :: ys else (x :: y) :: ys

/-- Python `float(s)` on a decimal string, as far as the loader's
claims depend on it: an optional sign, digits, optionally a decimal
point and fraction digits.  `none` models a raised `ValueError`. -/
def parseFloat? (str : String) : Option Rat :=
  match splitOnChar '.' str.data with
  | [a] => (intChars? a).map (fun n => (n : Rat))
  | [a, b] =>
    match intChars? a, digitsVal? b with
    | some n, some f =>
      some ((n : Rat) + (if n < 0 then -1 else 1) * (f : Rat) / ((10 : Rat) ^ b.length))
    | _, _ => none
  | _ => none

/-- Model of `lat, lon = map(float, location.split(','))` — succeeds exactly
when the string splits on a comma into two float components; any
other shape raises `ValueError`. -/
def parseLoc (locStr : String) : Option (Rat × Rat) :=
  match splitOnChar ',' locStr.data with
  | [a, b] =>
    match parseFloat? (String.mk a), parseFloat? (String.mk b) with
    | some lat, some lon => some (lat, lon)
    | _, _ => none
  | _ => none

/-! ## CSV rows

Each structure is one pandas row; `Option` fields hold the result of
the Python numeric coercion applied to them in the source (`none` =
the coercion raised), and `location : Option String` is `none` when
`pd.notna(row['location'])` is false. -/

structure UserRow where
  user_id : String
  username : String
  email : String
  bio : String
  join_date : String
  is_admin : Bool
  influence_score : Option Rat
  location : Option String
deriving DecidableEq, Repr

structure CommunityRow where
  community_id : String
  name : String
  category : String
  member_count : Option Int
deriving DecidableEq, Repr

structure PostRow where
  post_id : String
  author_id : String
  content : String
  timestamp : String
  view_count : Option Int
  engagement_score : Option Rat
deriving DecidableEq, Repr

structure HashtagRow where
  hashtag_id : String
  name : String
  use_count : Option Int
  trend_score : Option Rat
deriving DecidableEq, Repr

structure CommentRow where
  comment_id : String
  author_id : String
  post_id : String
  content : String
  timestamp : String
  sentiment_score : Option Rat
  reply_count : Option Int
deriving DecidableEq, Repr

structure FollowRow where
  follower_id : String
  followed_id : String
deriving DecidableEq, Repr

structure MemberRow where
  community_id : String
  user_id : String
deriving DecidableEq, Repr

structure PostHashtagRow where
  post_id : String
  hashtag_id : String
deriving DecidableEq, Repr

structure LikeRow where
  post_id : String
  user_id : String
deriving DecidableEq, Repr

/-! ## Entity loaders -/

/-- The `user_data` dict built in `_load_users` before the location
handling, from a row whose `float(row['influence_score'])` succeeded. -/
def userBaseData (r : UserRow) (isc : Rat) : MutData :=
  [("dgraph.type", .s "User"),
   ("username", .s r.username),
   ("email", .s r.email),
   ("bio", .s r.bio),
   ("joinDate", .s r.join_date),
   ("isAdmin", .b r.is_admin),
   ("influenceScore", .q isc)]

/-- One iteration of the `_load_users` row loop: the whole body is in a
`try`, so a failed `float(...)` is logged and the row skipped; a
present-but-malformed location is caught by the inner `try`, logged,
and the location key omitted while the node is still created. -/
def loadUsersStep (acc : Svc × UidMap) (r : UserRow) : Svc × UidMap :=
  let s := acc.1
  let m := acc.2
  match r.influence_score with
  | none =>
    (s.logged ("ERROR Error creating user " ++ r.user_id), m)
  | some isc =>
    let base := userBaseData r isc
    let (data, s1) :=
      match r.location with
      | none => (base, s)
      | some locStr =>
        match parseLoc locStr with
        | some (lat, lon) => (base ++ [("location", .point lon lat)], s)
        | none => (base, s.logged ("WARNING Invalid location format for user " ++ r.user_id))
    let (uid, s2) := createMutation s1 data
    (s2.logged ("DEBUG Created user " ++ r.user_id), aset m r.user_id uid)

/-- Model of `DGraphCSVLoader._load_users`: fold the row loop, then emit the
summary log lines (`Successfully loaded n users`, and the
`Failed to load k users` warning when some rows were skipped). -/
def loadUsers (rows : List UserRow) (s : Svc) : UidMap × Svc :=
  let (s1, m) := rows.foldl loadUsersStep (s, [])
  let s2 := s1.logged ("INFO Successfully loaded " ++ toString m.length ++ " users")
  let s3 := if m.length < rows.length then
      s2.logged ("WARNING Failed to load " ++ toString (rows.length - m.length) ++ " users")
    else s2
  (m, s3)

/-- Model of the `DGraphCSVLoader._load_communities` row loop.  There is no `try`
around the row body in the source, so a failed
`int(row['member_count'])` propagates and aborts the batch (`err`). -/
def loadCommunitiesGo (s : Svc) (m : UidMap) : List CommunityRow → LoadResult UidMap
  | [] => .ok m s
  | r :: rest =>
    match r.member_count with
    | none => .err s
    | some mc =>
      let data : MutData :=
        [("dgraph.type", .s "Community"),
         ("name", .s r.name),
         ("category", .s r.category),
         ("memberCount", .i mc),
         ("community_id", .s r.community_id)]
      let (uid, s1) := createMutation s data
      loadCommunitiesGo s1 (aset m r.community_id uid) rest

def loadCommunities (rows : List CommunityRow) (s : Svc) : LoadResult UidMap :=
  loadCommunitiesGo s [] rows

/-- Model of the `DGraphCSVLoader._load_posts` row loop.  The author check comes
first (absent author ⇒ warn and skip); the numeric coercions in the
`post_data` literal are OUTSIDE the `try`, so a failed `int(...)` or
`float(...)` propagates and aborts the batch. -/
def loadPostsGo (userMap : UidMap) (s : Svc) (m : UidMap) : List PostRow → LoadResult UidMap
  | [] => .ok m s
  | r :: rest =>
    match aget? userMap r.author_id with
    | none =>
      loadPostsGo userMap
        (s.logged ("WARNING Author ID " ++ r.author_id ++ " not found in user UID map. Skipping post."))
        m rest
    | some authorUid =>
      match r.view_count, r.engagement_score with
      | some vc, some es =>
        let data : MutData :=
          [("dgraph.type", .s "Post"),
           ("content", .s r.content),
           ("timestamp", .s r.timestamp),
           ("viewCount", .i vc),
           ("engagementScore", .q es),
           ("author", .uidRef authorUid)]
        let (uid, s1) := createMutation s data
        loadPostsGo userMap s1 (aset m r.post_id uid) rest
      | _, _ => .err s

def loadPosts (rows : List PostRow) (userMap : UidMap) (s : Svc) : LoadResult UidMap :=
  loadPostsGo userMap s [] rows

/-- Model of the `DGraphCSVLoader._load_hashtags` row loop: like communities, no
`try`, so a failed numeric coercion aborts the batch. -/
def loadHashtagsGo (s : Svc) (m : UidMap) : List HashtagRow → LoadResult UidMap
  | [] => .ok m s
  | r :: rest =>
    match r.use_count, r.trend_score with
    | some uc, some ts =>
      let data : MutData :=
        [("dgraph.type", .s "Hashtag"),
         ("hashtag_id", .s r.hashtag_id),
         ("name", .s r.name),
         ("useCount", .i uc),
         ("trendScore", .q ts)]
      let (uid, s1) := createMutation s data
      loadHashtagsGo s1 (aset m r.hashtag_id uid) rest
    | _, _ => .err s

def loadHashtags (rows : List HashtagRow) (s : Svc) : LoadResult UidMap :=
  loadHashtagsGo s [] rows

/-- One iteration of the `_load_comments` row loop: the whole body is
in a `try`, so both the referential checks (warn + skip) and a failed
numeric coercion (error + skip) leave the batch running. -/
def loadCommentsStep (userMap postMap : UidMap) (acc : Svc × UidMap) (r : CommentRow) :
    Svc × UidMap :=
  let s := acc.1
  let m := acc.2
  match aget? userMap r.author_id with
  | none =>
    (s.logged ("WARNING Author ID " ++ r.author_id ++ " not found in user UID map. Skipping comment."), m)
  | some authorUid =>
    match aget? postMap r.post_id with
    | none =>
      (s.logged ("WARNING Post ID " ++ r.post_id ++ " not found in post UID map. Skipping comment."), m)
    | some postUid =>
      match r.sentiment_score, r.reply_count with
      | some ss, some rc =>
        let data : MutData :=
          [("dgraph.type", .s "Comment"),
           ("content", .s r.content),
           ("timestamp", .s r.timestamp),
           ("sentimentScore", .q ss),
           ("replyCount", .i rc),
           ("author", .uidRef authorUid),
           ("post", .uidRef postUid)]
        let (uid, s1) := createMutation s data
        (s1.logged ("DEBUG Created comment " ++ r.comment_id), aset m r.comment_id uid)
      | _, _ => (s.logged "ERROR Error creating comment", m)

/-- Model of `DGraphCSVLoader._load_comments`: fold the loop, then the summary
log lines. -/
def loadComments (rows : List CommentRow) (userMap postMap : UidMap) (s : Svc) :
    UidMap × Svc :=
  let (s1, m) := rows.foldl (loadCommentsStep userMap postMap) (s, [])
  let s2 := s1.logged ("INFO Successfully loaded " ++ toString m.length ++ " comments")
  let s3 := if m.length < rows.length then
      s2.logged ("WARNING Failed to load " ++ toString (rows.length - m.length) ++ " comments")
    else s2
  (m, s3)

/-! ## Relationship loaders

Each row loop is wrapped in a `try` catching `KeyError`, so a missing
endpoint key is logged and the loop continues; when both keys resolve,
exactly one edge mutation on the owner node is issued. -/

/-- One iteration of the `_load_follows` row loop. -/
def loadFollowsStep (userMap : UidMap) (s : Svc) (r : FollowRow) : Svc :=
  match aget? userMap r.follower_id, aget? userMap r.followed_id with
  | some followerUid, some followedUid =>
    (createMutation s [("uid", .s followerUid), ("follows", .uidRef followedUid)]).2
  | _, _ => s.logged "ERROR Missing UID mapping for user"

def loadFollows (rows : List FollowRow) (userMap : UidMap) (s : Svc) : Svc :=
  rows.foldl (loadFollowsStep userMap) s

/-- One iteration of the `_load_community_members` row loop. -/
def loadMembersStep (communityMap userMap : UidMap) (s : Svc) (r : MemberRow) : Svc :=
  match aget? communityMap r.community_id, aget? userMap r.user_id with
  | some communityUid, some memberUid =>
    (createMutation s [("uid", .s communityUid), ("members", .uidRef memberUid)]).2
  | _, _ => s.logged "ERROR Missing UID mapping"

def loadCommunityMembers (rows : List MemberRow) (communityMap userMap : UidMap) (s : Svc) : Svc :=
  rows.foldl (loadMembersStep communityMap userMap) s

/-- One iteration of the `_load_post_hashtags` row loop. -/
def loadPostHashtagsStep (postMap hashtagMap : UidMap) (s : Svc) (r : PostHashtagRow) : Svc :=
  match aget? postMap r.post_id, aget? hashtagMap r.hashtag_id with
  | some postUid, some hashtagUid =>
    (createMutation s [("uid", .s postUid), ("hashtags", .uidRef hashtagUid)]).2
  | _, _ => s.logged "ERROR Missing UID mapping"

def loadPostHashtags (rows : List PostHashtagRow) (postMap hashtagMap : UidMap) (s : Svc) : Svc :=
  rows.foldl (loadPostHashtagsStep postMap hashtagMap) s

/-- One iteration of the `_load_post_likes` row loop. -/
def loadPostLikesStep (postMap userMap : UidMap) (s : Svc) (r : LikeRow) : Svc :=
  match aget? postMap r.post_id, aget? userMap r.user_id with
  | some postUid, some userUid =>
    (createMutation s [("uid", .s postUid), ("likedBy", .uidRef userUid)]).2
  | _, _ => s.logged "ERROR Missing UID mapping"

def loadPostLikes (rows : List LikeRow) (postMap userMap : UidMap) (s : Svc) : Svc :=
  rows.foldl (loadPostLikesStep postMap userMap) s

/-! ## Orchestrator -/

/-- The CSV files in the data directory, as `_load_*` sees them after
`pd.read_csv`: `none` means `read_csv` raised (missing/unreadable
file), which no loader catches internally. -/
structure Files where
  user : Option (List UserRow)
  communities : Option (List CommunityRow)
  post : Option (List PostRow)
  hashtags : Option (List HashtagRow)
  comments : Option (List CommentRow)
  user_follows : Option (List FollowRow)
  community_members : Option (List MemberRow)
  post_hashtags : Option (List PostHashtagRow)
  post_likes : Option (List LikeRow)
deriving Repr

/-- The five uid maps `load_data` leaves on the loader instance. -/
structure Maps where
  userMap : UidMap
  communityMap : UidMap
  postMap : UidMap
  hashtagMap : UidMap
  commentMap : UidMap
deriving DecidableEq, Repr

/-- Model of `DGraphCSVLoader.load_data`: the single `try` spans every entity
AND relationship load, and the `except` logs and re-raises — so any
uncaught failure anywhere (a `read_csv` failure on any file, or a
numeric-parse abort inside communities/posts/hashtags) stops the
sequence at that point and propagates (`err`). -/
def loadData (files : Files) (s0 : Svc) : LoadResult Maps :=
  match files.user with
  | none => .err (s0.logged "ERROR Error loading data")
  | some userRows =>
  let (userMap, s1) := loadUsers userRows s0
  let s1 := s1.logged ("INFO Loaded " ++ toString userMap.length ++ " users")
  match files.communities with
  | none => .err (s1.logged "ERROR Error loading data")
  | some communityRows =>
  match loadCommunities communityRows s1 with
  | .err s => .err (s.logged "ERROR Error loading data")
  | .ok communityMap s2 =>
  let s2 := s2.logged ("INFO Loaded " ++ toString communityMap.length ++ " communities")
  match files.post with
  | none => .err (s2.logged "ERROR Error loading data")
  | some postRows =>
  match loadPosts postRows userMap s2 with
  | .err s => .err (s.logged "ERROR Error loading data")
  | .ok postMap s3 =>
  let s3 := s3.logged ("INFO Loaded " ++ toString postMap.length ++ " posts")
  match files.hashtags with
  | none => .err (s3.logged "ERROR Error loading data")
  | some hashtagRows =>
  match loadHashtags hashtagRows s3 with
  | .err s => .err (s.logged "ERROR Error loading data")
  | .ok hashtagMap s4 =>
  let s4 := s4.logged ("INFO Loaded " ++ toString hashtagMap.length ++ " hashtags")
  match files.comments with
  | none => .err (s4.logged "ERROR Error loading data")
  | some commentRows =>
  let (commentMap, s5) := loadComments commentRows userMap postMap s4
  let s5 := s5.logged ("INFO Loaded " ++ toString commentMap.length ++ " comments")
  match files.user_follows with
  | none => .err (s5.logged "ERROR Error loading data")
  | some followRows =>
  let s6 := loadFollows followRows userMap s5
  match files.community_members with
  | none => .err (s6.logged "ERROR Error loading data")
  | some memberRows =>
  let s7 := loadCommunityMembers memberRows communityMap userMap s6
  match files.post_hashtags with
  | none => .err (s7.logged "ERROR Error loading data")
  | some postHashtagRows =>
  let s8 := loadPostHashtags postHashtagRows postMap hashtagMap s7
  match files.post_likes with
  | none => .err (s8.logged "ERROR Error loading data")
  | some likeRows =>
  let s9 := loadPostLikes likeRows postMap userMap s8
  .ok ⟨userMap, communityMap, postMap, hashtagMap, commentMap⟩ s9

/-! ## Per-row transaction discipline (`_create_mutation`) -/

/-- How one `_create_mutation` call can go: the mutate call succeeds or
raises, and after a successful mutate the commit succeeds or raises. -/
inductive TxnOutcome where
  | ok
  | mutateErr
  | commitErr
deriving DecidableEq, Repr

/-- Observable transaction events of one `_create_mutation` call. -/
inductive TxnEvent where
  | acquire
  | mutateOk
  | commitOk
  | discard
deriving DecidableEq, Repr

/-- The event trace of `_create_mutation`: `txn = client.txn()` then a
`try` whose body is mutate → commit → return, and a `finally` that runs
`txn.discard()` on every exit path (normal return or raise). -/
def createMutationTrace : TxnOutcome → List TxnEvent
  | .ok => [.acquire, .mutateOk, .commitOk, .discard]
  | .mutateErr => [.acquire, .discard]
  | .commitErr => [.acquire, .mutateOk, .discard]

/-- Whether the call returned normally (only when commit succeeded). -/
def createMutationReturns : TxnOutcome → Bool
  | .ok => true
  | .mutateErr => false
  | .commitErr => false

/-! ## The interactive CLI (`src/client.py`) -/

/-- One pass through the menu loop: the option the user typed, whether
the selected handler raised, and — for `create data` — the mutations
that `load_data` applied before returning. -/
structure MenuInput where
  choice : Int
  raises : Bool
  loaded : List MutData
deriving DecidableEq, Repr

/-- Process-visible client state: the graph contents, whether the
client stub is open, and the client-level operations performed. -/
structure CliState where
  graph : List MutData
  stubOpen : Bool
  actions : List String
deriving DecidableEq, Repr

/-- How the process ends (or where it stands when input ends). -/
inductive ProcEnd where
  | atMenu
  | exited
  | crashed
deriving DecidableEq, Repr

/-- The `while(True)` menu loop of `client.py main` together with the
`try/except` around `main()` at module level.  The loop body has no
exception handler, so a raising handler propagates out of `main`, is
printed by the top-level `except`, and the process ends (`crashed`).
Option 3 calls `model.delete_condition`, which `model.py` does not
define, so it raises `AttributeError` unconditionally.  Option 5 calls
`model.drop_data` (a drop-all alter), closes the stub, and exits. -/
def runMenu (st : CliState) : List MenuInput → ProcEnd × CliState
  | [] => (.atMenu, st)
  | inp :: rest =>
    if inp.raises then (.crashed, st)
    else if inp.choice = 1 then
      runMenu { st with graph := st.graph ++ inp.loaded,
                        actions := st.actions ++ ["load_data"] } rest
    else if inp.choice = 2 then runMenu st rest
    else if inp.choice = 3 then (.crashed, st)
    else if inp.choice = 4 then
      runMenu { st with graph := [], actions := st.actions ++ ["alter drop_all"] } rest
    else if inp.choice = 5 then
      (.exited, { graph := [], stubOpen := false,
                  actions := st.actions ++ ["alter drop_all", "stub.close", "exit 0"] })
    else runMenu st rest

/-! ## General-purpose lemmas -/

theorem freshUid_injective : Function.Injective freshUid := by
  intro a b h
  have hd : ("0x" ++ String.mk (List.replicate a 'f')).data
      = ("0x" ++ String.mk (List.replicate b 'f')).data := by
    rw [show ("0x" ++ String.mk (List.replicate a 'f')) = freshUid a from rfl,
        show ("0x" ++ String.mk (List.replicate b 'f')) = freshUid b from rfl, h]
  simp only [String.data_append] at hd
  have := List.append_cancel_left hd
  have hlen : (List.replicate a 'f').length = (List.replicate b 'f').length := by rw [this]
  simpa using hlen

/-- Service state carried by a `LoadResult`, whether or not the load
raised. -/
def LoadResult.svc {α : Type} : LoadResult α → Svc
  | .ok _ s => s
  | .err s => s

/-- Did the load raise (propagate an exception)? -/
def LoadResult.raised {α : Type} : LoadResult α → Bool
  | .ok _ _ => false
  | .err _ => true

/-- The `dgraph.type` attribute of a mutation object (node creations
carry one; edge mutations on an existing node do not). -/
def mutType (d : MutData) : Option String :=
  match d.find? (fun p => p.1 = "dgraph.type") with
  | some (_, FVal.s t) => some t
  | _ => none

/-- The edge predicate of a two-field edge mutation
`\x7b"uid": owner, pred: \x7b"uid": target\x7d\x7d`. -/
def edgePred : MutData → Option String
  | [("uid", FVal.s _), (p, FVal.uidRef _)] => some p
  | _ => none

/-- C7: Every per-row mutation acquires its own transaction and the
transaction is released (discarded) on every exit path of
`_create_mutation`, including when mutate or commit raises; only
commit is the happy path. -/
theorem c7_txn_released_on_every_path (o : TxnOutcome) :
    (createMutationTrace o).head? = some TxnEvent.acquire ∧
    (createMutationTrace o).count TxnEvent.acquire = 1 ∧
    (createMutationTrace o).getLast? = some TxnEvent.discard ∧
    (createMutationTrace o).count TxnEvent.discard = 1 ∧
    (createMutationReturns o = true ↔ o = TxnOutcome.ok) ∧
    (TxnEvent.commitOk ∈ createMutationTrace o ↔ o = TxnOutcome.ok) := by
  cases o <;> decide

/-- C10: Selecting the menu's Exit option (5) issues a drop-all
(emptying the graph) before closing the stub and exiting with code 0,
whatever the graph held; exiting through the menu never preserves
data. -/
theorem c10_exit_drops_all (st : CliState) (inp : MenuInput) (rest : List MenuInput)
    (hr : inp.raises = false) (hc : inp.choice = 5) :
    runMenu st (inp :: rest) =
      (ProcEnd.exited,
       { graph := [], stubOpen := false,
         actions := st.actions ++ ["alter drop_all", "stub.close", "exit 0"] }) := by
  simp [runMenu, hr, hc]

theorem c10_exit_drops_all_witness :
    (⟨5, false, []⟩ : MenuInput).raises = false ∧
    (⟨5, false, []⟩ : MenuInput).choice = 5 ∧
    runMenu ⟨[[("dgraph.type", FVal.s "User")]], true, ["load_data"]⟩ [⟨5, false, []⟩] =
      (ProcEnd.exited,
       { graph := [], stubOpen := false,
         actions := ["load_data", "alter drop_all", "stub.close", "exit 0"] }) :=
  ⟨rfl, rfl, c10_exit_drops_all ⟨[[("dgraph.type", FVal.s "User")]], true, ["load_data"]⟩
    ⟨5, false, []⟩ [] rfl rfl⟩

/-- C8 (amended): an unhandled failure in a menu operation propagates
out of the menu loop (which has no handler) to the module-level
`except`, and the process terminates; it does not return to the menu.
Option 3 always fails this way because `model.delete_condition` does
not exist. -/
theorem c8_menu_failure_kills_process (st : CliState) (inp : MenuInput)
    (rest : List MenuInput)
    (h : inp.raises = true ∨ (inp.raises = false ∧ inp.choice = 3)) :
    runMenu st (inp :: rest) = (ProcEnd.crashed, st) := by
  rcases h with h | ⟨h1, h2⟩
  · simp [runMenu, h]
  · simp [runMenu, h1, h2]

theorem c8_menu_failure_kills_process_witness :
    ((⟨1, true, []⟩ : MenuInput).raises = true ∨
      ((⟨1, true, []⟩ : MenuInput).raises = false ∧ (⟨1, true, []⟩ : MenuInput).choice = 3)) ∧
    runMenu ⟨[], true, []⟩ [⟨1, true, []⟩, ⟨2, false, []⟩] = (ProcEnd.crashed, ⟨[], true, []⟩) :=
  ⟨Or.inl rfl,
   c8_menu_failure_kills_process ⟨[], true, []⟩ ⟨1, true, []⟩ [⟨2, false, []⟩] (Or.inl rfl)⟩

/-- C8 counterexample: choosing option 3 (whose handler raises — it
calls `model.delete_condition`, which `model.py` never defines) ends
the process as `crashed`; the following menu interaction is never
processed and the loop does not return to the menu. -/
theorem c8_counterexample :
    runMenu ⟨[], true, []⟩ [⟨3, false, []⟩, ⟨2, false, []⟩] = (ProcEnd.crashed, ⟨[], true, []⟩) ∧
    (ProcEnd.crashed ≠ ProcEnd.atMenu) := by
  constructor
  · rfl
  · decide

/-- With an empty user mapping every post row takes the skip branch
before any numeric coercion, so `_load_posts` cannot raise: it returns
an empty mapping, issues no mutation, and allocates no uid. -/
theorem loadPostsGo_emptyMap (rows : List PostRow) (s : Svc) (m : UidMap) :
    ∃ s', loadPostsGo [] s m rows = .ok m s' ∧ s'.muts = s.muts ∧ s'.nextUid = s.nextUid := by
  induction rows generalizing s with
  | nil => exact ⟨s, rfl, rfl, rfl⟩
  | cons r rest ih =>
    have hnone : aget? [] r.author_id = none := rfl
    obtain ⟨s', h1, h2, h3⟩ := ih (s.logged
      ("WARNING Author ID " ++ r.author_id ++ " not found in user UID map. Skipping post."))
    exact ⟨s', by simpa [loadPostsGo, hnone] using h1, by simpa [Svc.logged] using h2,
      by simpa [Svc.logged] using h3⟩

/-- C1: a post row whose author is absent from the user mapping, and a
comment row whose author or post key is absent, produce no mutation
and no mapping entry and the loop moves to the next row; and invoking
the posts load with an empty user mapping returns an empty mapping
without raising or touching the service. -/
theorem c1_referential_skip (um pm : UidMap) (pr : PostRow) (cr1 cr2 : CommentRow)
    (auid : String)
    (hp : aget? um pr.author_id = none)
    (hc1 : aget? um cr1.author_id = none)
    (hc2a : aget? um cr2.author_id = some auid)
    (hc2b : aget? pm cr2.post_id = none) :
    (∀ (s : Svc) (m : UidMap) (rest : List PostRow),
      loadPostsGo um s m (pr :: rest) =
        loadPostsGo um
          (s.logged ("WARNING Author ID " ++ pr.author_id ++
            " not found in user UID map. Skipping post.")) m rest) ∧
    (∀ (s : Svc) (m : UidMap),
      loadCommentsStep um pm (s, m) cr1 =
        (s.logged ("WARNING Author ID " ++ cr1.author_id ++
          " not found in user UID map. Skipping comment."), m)) ∧
    (∀ (s : Svc) (m : UidMap),
      loadCommentsStep um pm (s, m) cr2 =
        (s.logged ("WARNING Post ID " ++ cr2.post_id ++
          " not found in post UID map. Skipping comment."), m)) ∧
    (∀ (rows : List PostRow) (s : Svc),
      ∃ s', loadPosts rows [] s = .ok [] s' ∧ s'.muts = s.muts ∧ s'.nextUid = s.nextUid) := by
  refine ⟨?_, ?_, ?_, ?_⟩
  · intro s m rest
    simp [loadPostsGo, hp]
  · intro s m
    simp [loadCommentsStep, hc1]
  · intro s m
    simp [loadCommentsStep, hc2a, hc2b]
  · intro rows s
    exact loadPostsGo_emptyMap rows s []

theorem c1_referential_skip_witness :
    (aget? [("u1", "0x")] "u2" = none) ∧
    (aget? [("u1", "0x")] "u9" = none) ∧
    (aget? [("u1", "0x")] "u1" = some "0x") ∧
    (aget? [] "p7" = none) ∧
    (∀ (s : Svc) (m : UidMap) (rest : List PostRow),
      loadPostsGo [("u1", "0x")] s m (⟨"p1", "u2", "hi", "t", some 3, some 1⟩ :: rest) =
        loadPostsGo [("u1", "0x")]
          (s.logged ("WARNING Author ID " ++ "u2" ++
            " not found in user UID map. Skipping post.")) m rest) := by
  refine ⟨rfl, rfl, rfl, rfl, ?_⟩
  have h := c1_referential_skip [("u1", "0x")] [] ⟨"p1", "u2", "hi", "t", some 3, some 1⟩
    ⟨"c1", "u9", "p7", "x", "t", some 1, some 2⟩ ⟨"c2", "u1", "p7", "x", "t", some 1, some 2⟩
    "0x" rfl rfl rfl rfl
  exact h.1

/-- C2: for each relationship kind, a row whose two endpoint keys both
resolve issues exactly one edge mutation carrying the two resolved
uids under the named predicate; a row with a missing endpoint issues
nothing and is logged; and the fold proceeds to the remaining rows
either way. -/
theorem c2_relationship_rows (um cm pm hm : UidMap)
    (rf rf' : FollowRow) (rm rm' : MemberRow) (rh rh' : PostHashtagRow) (rl rl' : LikeRow)
    (fu tu cu mu pu hu pu' uu : String)
    (hf1 : aget? um rf.follower_id = some fu) (hf2 : aget? um rf.followed_id = some tu)
    (hf3 : aget? um rf'.follower_id = none ∨ aget? um rf'.followed_id = none)
    (hm1 : aget? cm rm.community_id = some cu) (hm2 : aget? um rm.user_id = some mu)
    (hm3 : aget? cm rm'.community_id = none ∨ aget? um rm'.user_id = none)
    (hh1 : aget? pm rh.post_id = some pu) (hh2 : aget? hm rh.hashtag_id = some hu)
    (hh3 : aget? pm rh'.post_id = none ∨ aget? hm rh'.hashtag_id = none)
    (hl1 : aget? pm rl.post_id = some pu') (hl2 : aget? um rl.user_id = some uu)
    (hl3 : aget? pm rl'.post_id = none ∨ aget? um rl'.user_id = none) :
    (∀ s : Svc, loadFollowsStep um s rf =
      { s with nextUid := s.nextUid + 1,
               muts := s.muts ++ [[("uid", FVal.s fu), ("follows", FVal.uidRef tu)]] }) ∧
    (∀ s : Svc, loadFollowsStep um s rf' = s.logged "ERROR Missing UID mapping for user") ∧
    (∀ s : Svc, loadMembersStep cm um s rm =
      { s with nextUid := s.nextUid + 1,
               muts := s.muts ++ [[("uid", FVal.s cu), ("members", FVal.uidRef mu)]] }) ∧
    (∀ s : Svc, loadMembersStep cm um s rm' = s.logged "ERROR Missing UID mapping") ∧
    (∀ s : Svc, loadPostHashtagsStep pm hm s rh =
      { s with nextUid := s.nextUid + 1,
               muts := s.muts ++ [[("uid", FVal.s pu), ("hashtags", FVal.uidRef hu)]] }) ∧
    (∀ s : Svc, loadPostHashtagsStep pm hm s rh' = s.logged "ERROR Missing UID mapping") ∧
    (∀ s : Svc, loadPostLikesStep pm um s rl =
      { s with nextUid := s.nextUid + 1,
               muts := s.muts ++ [[("uid", FVal.s pu'), ("likedBy", FVal.uidRef uu)]] }) ∧
    (∀ s : Svc, loadPostLikesStep pm um s rl' = s.logged "ERROR Missing UID mapping") ∧
    (∀ (s : Svc) (rest : List FollowRow) (r : FollowRow),
      loadFollows (r :: rest) um s = loadFollows rest um (loadFollowsStep um s r)) ∧
    (∀ (s : Svc) (rest : List MemberRow) (r : MemberRow),
      loadCommunityMembers (r :: rest) cm um s =
        loadCommunityMembers rest cm um (loadMembersStep cm um s r)) ∧
    (∀ (s : Svc) (rest : List PostHashtagRow) (r : PostHashtagRow),
      loadPostHashtags (r :: rest) pm hm s =
        loadPostHashtags rest pm hm (loadPostHashtagsStep pm hm s r)) ∧
    (∀ (s : Svc) (rest : List LikeRow) (r : LikeRow),
      loadPostLikes (r :: rest) pm um s = loadPostLikes rest pm um (loadPostLikesStep pm um s r)) := by
  refine ⟨?_, ?_, ?_, ?_, ?_, ?_, ?_, ?_,
    fun s rest r => rfl, fun s rest r => rfl, fun s rest r => rfl, fun s rest r => rfl⟩
  · intro s; simp [loadFollowsStep, hf1, hf2, createMutation]
  · intro s
    rcases hf3 with h | h
    · simp [loadFollowsStep, h]
    · cases h1 : aget? um rf'.follower_id <;> simp [loadFollowsStep, h1, h]
  · intro s; simp [loadMembersStep, hm1, hm2, createMutation]
  · intro s
    rcases hm3 with h | h
    · simp [loadMembersStep, h]
    · cases h1 : aget? cm rm'.community_id <;> simp [loadMembersStep, h1, h]
  · intro s; simp [loadPostHashtagsStep, hh1, hh2, createMutation]
  · intro s
    rcases hh3 with h | h
    · simp [loadPostHashtagsStep, h]
    · cases h1 : aget? pm rh'.post_id <;> simp [loadPostHashtagsStep, h1, h]
  · intro s; simp [loadPostLikesStep, hl1, hl2, createMutation]
  · intro s
    rcases hl3 with h | h
    · simp [loadPostLikesStep, h]
    · cases h1 : aget? pm rl'.post_id <;> simp [loadPostLikesStep, h1, h]

theorem c2_relationship_rows_witness :
    (aget? [("u1", "0xa"), ("u2", "0xb")] "u1" = some "0xa") ∧
    (aget? [("u1", "0xa"), ("u2", "0xb")] "u2" = some "0xb") ∧
    (aget? [("u1", "0xa"), ("u2", "0xb")] "zz" = none) ∧
    (aget? [("c1", "0xc")] "c1" = some "0xc") ∧
    (aget? [("c1", "0xc")] "zz" = none) ∧
    (aget? [("p1", "0xd")] "p1" = some "0xd") ∧
    (aget? [("p1", "0xd")] "zz" = none) ∧
    (aget? [("h1", "0xe")] "h1" = some "0xe") ∧
    (aget? [("h1", "0xe")] "zz" = none) ∧
    loadFollowsStep [("u1", "0xa"), ("u2", "0xb")] Svc.init ⟨"u1", "u2"⟩ =
      { Svc.init with nextUid := 1,
                      muts := [[("uid", FVal.s "0xa"), ("follows", FVal.uidRef "0xb")]] } := by
  refine ⟨rfl, rfl, rfl, rfl, rfl, rfl, rfl, rfl, rfl, ?_⟩
  have h := c2_relationship_rows [("u1", "0xa"), ("u2", "0xb")] [("c1", "0xc")]
    [("p1", "0xd")] [("h1", "0xe")]
    ⟨"u1", "u2"⟩ ⟨"u1", "zz"⟩ ⟨"c1", "u1"⟩ ⟨"zz", "u1"⟩ ⟨"p1", "h1"⟩ ⟨"p1", "zz"⟩
    ⟨"p1", "u2"⟩ ⟨"zz", "u1"⟩
    "0xa" "0xb" "0xc" "0xa" "0xd" "0xe" "0xd" "0xb"
    rfl rfl (Or.inr rfl) rfl rfl (Or.inl rfl) rfl rfl (Or.inr rfl) rfl rfl (Or.inl rfl)
  simpa [Svc.init] using h.1 Svc.init

/-- C4 (amended): a row with an unparsable required numeric field is
skipped (logged) and the batch continues only for Users and Comments,
whose row loops sit in a `try`; for Communities, Hashtags, and Posts
the coercion failure propagates and aborts the batch, leaving the
remaining rows unprocessed. -/
theorem c4_numeric_parse_failures (um pm : UidMap) (ur : UserRow) (cr : CommentRow)
    (cmr : CommunityRow) (hr : HashtagRow) (por : PostRow) (auid cuid puid : String)
    (hu : ur.influence_score = none)
    (hc1 : aget? um cr.author_id = some auid) (hc2 : aget? pm cr.post_id = some cuid)
    (hc3 : cr.sentiment_score = none)
    (hcm : cmr.member_count = none)
    (hh : hr.use_count = none)
    (hp1 : aget? um por.author_id = some puid) (hp2 : por.view_count = none) :
    (∀ (s : Svc) (m : UidMap),
      loadUsersStep (s, m) ur = (s.logged ("ERROR Error creating user " ++ ur.user_id), m)) ∧
    (∀ (s : Svc) (m : UidMap),
      loadCommentsStep um pm (s, m) cr = (s.logged "ERROR Error creating comment", m)) ∧
    (∀ (s : Svc) (m : UidMap) (rest : List CommunityRow),
      loadCommunitiesGo s m (cmr :: rest) = .err s) ∧
    (∀ (s : Svc) (m : UidMap) (rest : List HashtagRow),
      loadHashtagsGo s m (hr :: rest) = .err s) ∧
    (∀ (s : Svc) (m : UidMap) (rest : List PostRow),
      loadPostsGo um s m (por :: rest) = .err s) := by
  refine ⟨?_, ?_, ?_, ?_, ?_⟩
  · intro s m; simp [loadUsersStep, hu]
  · intro s m; simp [loadCommentsStep, hc1, hc2, hc3]
  · intro s m rest; simp [loadCommunitiesGo, hcm]
  · intro s m rest; simp [loadHashtagsGo, hh]
  · intro s m rest; simp [loadPostsGo, hp1, hp2]

theorem c4_numeric_parse_failures_witness :
    ((⟨"u1", "n", "e", "b", "d", false, none, none⟩ : UserRow).influence_score = none) ∧
    (aget? [("u2", "0xa")] "u2" = some "0xa") ∧
    (aget? [("p1", "0xb")] "p1" = some "0xb") ∧
    ((⟨"c9", "u2", "p1", "x", "t", none, some 0⟩ : CommentRow).sentiment_score = none) ∧
    ((⟨"c1", "Tech", "tech", none⟩ : CommunityRow).member_count = none) ∧
    ((⟨"h1", "tag", none, some 1⟩ : HashtagRow).use_count = none) ∧
    (aget? [("u2", "0xa")] "u2" = some "0xa") ∧
    ((⟨"p9", "u2", "w", "t", none, some 1⟩ : PostRow).view_count = none) ∧
    (∀ (s : Svc) (m : UidMap) (rest : List CommunityRow),
      loadCommunitiesGo s m (⟨"c1", "Tech", "tech", none⟩ :: rest) = .err s) := by
  refine ⟨rfl, rfl, rfl, rfl, rfl, rfl, rfl, rfl, ?_⟩
  exact (c4_numeric_parse_failures [("u2", "0xa")] [("p1", "0xb")]
    ⟨"u1", "n", "e", "b", "d", false, none, none⟩ ⟨"c9", "u2", "p1", "x", "t", none, some 0⟩
    ⟨"c1", "Tech", "tech", none⟩ ⟨"h1", "tag", none, some 1⟩ ⟨"p9", "u2", "w", "t", none, some 1⟩
    "0xa" "0xb" "0xa" rfl rfl rfl rfl rfl rfl rfl rfl).2.2.1

/-- C4 counterexample: a Community batch whose first row has an
unparsable `member_count` aborts at that row — the second (valid) row
is never processed, no mutation is issued, and no mapping is returned;
the claim's "the batch never aborts because of one malformed row" is
false for Communities. -/
theorem c4_counterexample :
    loadCommunities [⟨"c1", "Tech", "tech", none⟩, ⟨"c2", "JS", "dev", some 5⟩] Svc.init =
      .err Svc.init ∧
    (LoadResult.err Svc.init ≠
      (.ok [("c2", freshUid 0)]
        { Svc.init with nextUid := 1,
                        muts := [[("dgraph.type", FVal.s "Community"), ("name", FVal.s "JS"),
                                  ("category", FVal.s "dev"), ("memberCount", FVal.i 5),
                                  ("community_id", FVal.s "c2")]] } : LoadResult UidMap)) := by
  exact ⟨rfl, by decide⟩

/-- C9: a User row's optional location is included only when present:
absent ⇒ the node is created from the base fields; present but
malformed ⇒ a warning is logged, the location key is omitted, and the
node is still created (the row is not aborted); present and
well-formed ⇒ the node carries the GeoJSON point.  The base dict never
contains a location key. -/
theorem c9_optional_location (ur1 ur2 ur3 : UserRow) (i1 i2 i3 : Rat)
    (loc2 loc3 : String) (lat lon : Rat)
    (h1a : ur1.influence_score = some i1) (h1b : ur1.location = none)
    (h2a : ur2.influence_score = some i2) (h2b : ur2.location = some loc2)
    (h2c : parseLoc loc2 = none)
    (h3a : ur3.influence_score = some i3) (h3b : ur3.location = some loc3)
    (h3c : parseLoc loc3 = some (lat, lon)) :
    (∀ (s : Svc) (m : UidMap),
      loadUsersStep (s, m) ur1 =
        ({ s with nextUid := s.nextUid + 1,
                  muts := s.muts ++ [userBaseData ur1 i1],
                  log := s.log ++ ["DEBUG Created user " ++ ur1.user_id] },
         aset m ur1.user_id (freshUid s.nextUid))) ∧
    (∀ (s : Svc) (m : UidMap),
      loadUsersStep (s, m) ur2 =
        ({ s with nextUid := s.nextUid + 1,
                  muts := s.muts ++ [userBaseData ur2 i2],
                  log := s.log ++ ["WARNING Invalid location format for user " ++ ur2.user_id,
                                   "DEBUG Created user " ++ ur2.user_id] },
         aset m ur2.user_id (freshUid s.nextUid))) ∧
    (∀ (s : Svc) (m : UidMap),
      loadUsersStep (s, m) ur3 =
        ({ s with nextUid := s.nextUid + 1,
                  muts := s.muts ++ [userBaseData ur3 i3 ++ [("location", FVal.point lon lat)]],
                  log := s.log ++ ["DEBUG Created user " ++ ur3.user_id] },
         aset m ur3.user_id (freshUid s.nextUid))) ∧
    ("location" ∉ (userBaseData ur2 i2).map Prod.fst) := by
  refine ⟨?_, ?_, ?_, by simp [userBaseData]⟩
  · intro s m; simp [loadUsersStep, h1a, h1b, createMutation, Svc.logged]
  · intro s m; simp [loadUsersStep, h2a, h2b, h2c, createMutation, Svc.logged]
  · intro s m; simp [loadUsersStep, h3a, h3b, h3c, createMutation, Svc.logged]

theorem c9_optional_location_witness :
    ((⟨"u1", "a", "e", "b", "d", false, some 1, none⟩ : UserRow).influence_score = some 1) ∧
    ((⟨"u1", "a", "e", "b", "d", false, some 1, none⟩ : UserRow).location = none) ∧
    ((⟨"u2", "a", "e", "b", "d", false, some 2, some "oops"⟩ : UserRow).influence_score = some 2) ∧
    ((⟨"u2", "a", "e", "b", "d", false, some 2, some "oops"⟩ : UserRow).location = some "oops") ∧
    (parseLoc "oops" = none) ∧
    ((⟨"u3", "a", "e", "b", "d", false, some 3, some "1,2"⟩ : UserRow).influence_score = some 3) ∧
    ((⟨"u3", "a", "e", "b", "d", false, some 3, some "1,2"⟩ : UserRow).location = some "1,2") ∧
    (parseLoc "1,2" = some (1, 2)) ∧
    (∀ (s : Svc) (m : UidMap),
      loadUsersStep (s, m) ⟨"u2", "a", "e", "b", "d", false, some 2, some "oops"⟩ =
        ({ s with nextUid := s.nextUid + 1,
                  muts := s.muts ++
                    [userBaseData ⟨"u2", "a", "e", "b", "d", false, some 2, some "oops"⟩ 2],
                  log := s.log ++ ["WARNING Invalid location format for user " ++ "u2",
                                   "DEBUG Created user " ++ "u2"] },
         aset m "u2" (freshUid s.nextUid))) := by
  refine ⟨rfl, rfl, rfl, rfl, by decide, rfl, rfl, by decide, ?_⟩
  exact (c9_optional_location
    ⟨"u1", "a", "e", "b", "d", false, some 1, none⟩
    ⟨"u2", "a", "e", "b", "d", false, some 2, some "oops"⟩
    ⟨"u3", "a", "e", "b", "d", false, some 3, some "1,2"⟩
    1 2 3 "oops" "1,2" 1 2
    rfl rfl rfl rfl (by decide) rfl rfl (by decide)).2.1


/-! ## Characterisation of the user-load mapping -/

theorem amem_eq_false_iff (m : UidMap) (k : String) :
    (m.any (fun p => p.1 = k)) = false ↔ k ∉ m.map Prod.fst := by
  rw [← Bool.not_eq_true, List.any_eq_true]
  simp [List.mem_map, eq_comm]

theorem aset_of_not_mem (m : UidMap) (k v : String) (h : k ∉ m.map Prod.fst) :
    aset m k v = m ++ [(k, v)] := by
  have h2 : (m.any (fun p => p.1 = k)) = false := (amem_eq_false_iff m k).2 h
  simp [aset, h2]

/-- The mapping entries `_load_users` accumulates, when uid allocation
starts at `n`: one entry per row whose `float(influence_score)`
succeeded, valued with consecutively allocated fresh uids. -/
def usersEntries (n : Nat) : List UserRow → UidMap
  | [] => []
  | r :: rest =>
    match r.influence_score with
    | none => usersEntries n rest
    | some _ => (r.user_id, freshUid n) :: usersEntries (n + 1) rest

theorem usersEntries_keys (rows : List UserRow) : ∀ n : Nat,
    (usersEntries n rows).map Prod.fst =
      (rows.filter (fun r => r.influence_score.isSome)).map UserRow.user_id := by
  induction rows with
  | nil => intro n; simp [usersEntries]
  | cons r rest ih =>
    intro n
    cases hr : r.influence_score <;> simp [usersEntries, hr, ih]

theorem usersEntries_val_is_fresh (rows : List UserRow) : ∀ (n : Nat) (p : String × String),
    p ∈ usersEntries n rows → ∃ k, n ≤ k ∧ p.2 = freshUid k := by
  induction rows with
  | nil => intro n p hp; simp [usersEntries] at hp
  | cons r rest ih =>
    intro n p hp
    cases hr : r.influence_score with
    | none =>
      rw [usersEntries, hr] at hp
      exact ih n p hp
    | some v =>
      rw [usersEntries, hr] at hp
      rcases List.mem_cons.1 hp with rfl | hp'
      · exact ⟨n, le_refl n, rfl⟩
      · obtain ⟨k, hk, he⟩ := ih (n + 1) p hp'
        exact ⟨k, by omega, he⟩

theorem usersEntries_vals_nodup (rows : List UserRow) : ∀ n : Nat,
    ((usersEntries n rows).map Prod.snd).Nodup := by
  induction rows with
  | nil => intro n; simp [usersEntries]
  | cons r rest ih =>
    intro n
    cases hr : r.influence_score with
    | none => rw [usersEntries, hr]; exact ih n
    | some v =>
      rw [usersEntries, hr]
      refine List.nodup_cons.2 ⟨?_, ih (n + 1)⟩
      intro hmem
      rcases List.mem_map.1 hmem with ⟨p, hp, he⟩
      obtain ⟨k, hk, he2⟩ := usersEntries_val_is_fresh rest (n + 1) p hp
      have : k = n := freshUid_injective (by rw [← he2, he])
      omega

/-- The `_load_users` row loop, characterised: under unique natural
keys, the accumulated mapping is the initial one extended with
`usersEntries`, and the uid counter advances once per successful
row. -/
theorem loadUsers_fold_spec (rows : List UserRow) : ∀ (s : Svc) (m0 : UidMap),
    (m0.map Prod.fst ++ rows.map UserRow.user_id).Nodup →
    (rows.foldl loadUsersStep (s, m0)).2 = m0 ++ usersEntries s.nextUid rows ∧
    (rows.foldl loadUsersStep (s, m0)).1.nextUid =
      s.nextUid + (rows.filter (fun r => r.influence_score.isSome)).length := by
  induction rows with
  | nil => intro s m0 h; simp [usersEntries]
  | cons r rest ih =>
    intro s m0 h
    have hnotin : r.user_id ∉ m0.map Prod.fst := by
      rcases List.nodup_append.1 h with ⟨-, -, hdis⟩
      intro hc
      exact hdis hc (by simp)
    have hrest : ((m0 ++ [(r.user_id, freshUid s.nextUid)]).map Prod.fst ++
        rest.map UserRow.user_id).Nodup := by
      simpa [List.append_assoc] using h
    have hrest' : (m0.map Prod.fst ++ rest.map UserRow.user_id).Nodup := by
      refine List.Nodup.sublist ?_ h
      exact List.Sublist.append_left (List.sublist_cons_self _ _) _
    cases hr : r.influence_score with
    | none =>
      have hh := ih (Svc.logged s ("ERROR Error creating user " ++ r.user_id)) m0 hrest'
      rw [List.foldl_cons]
      rw [show loadUsersStep (s, m0) r =
        (Svc.logged s ("ERROR Error creating user " ++ r.user_id), m0) by
          simp [loadUsersStep, hr]]
      simpa [usersEntries, hr, Svc.logged] using hh
    | some isc =>
      have hstep : ∃ s2 : Svc, loadUsersStep (s, m0) r =
          (s2, m0 ++ [(r.user_id, freshUid s.nextUid)]) ∧ s2.nextUid = s.nextUid + 1 := by
        rcases hl : r.location with - | locStr
        · refine ⟨{ s with
                    nextUid := s.nextUid + 1,
                    muts := s.muts ++ [userBaseData r isc],
                    log := s.log ++ ["DEBUG Created user " ++ r.user_id] }, ?_, rfl⟩
          simp [loadUsersStep, hr, hl, createMutation, Svc.logged,
            aset_of_not_mem m0 _ _ hnotin]
        · rcases hp : parseLoc locStr with - | ⟨lat, lon⟩
          · refine ⟨{ s with
                      nextUid := s.nextUid + 1,
                      muts := s.muts ++ [userBaseData r isc],
                      log := s.log ++ ["WARNING Invalid location format for user " ++ r.user_id,
                        "DEBUG Created user " ++ r.user_id] }, ?_, rfl⟩
            simp [loadUsersStep, hr, hl, hp, createMutation, Svc.logged,
              aset_of_not_mem m0 _ _ hnotin]
          · refine ⟨{ s with
                      nextUid := s.nextUid + 1,
                      muts := s.muts ++ [userBaseData r isc ++ [("location", FVal.point lon lat)]],
                      log := s.log ++ ["DEBUG Created user " ++ r.user_id] }, ?_, rfl⟩
            simp [loadUsersStep, hr, hl, hp, createMutation, Svc.logged,
              aset_of_not_mem m0 _ _ hnotin]
      obtain ⟨s2, hstep, hnext⟩ := hstep
      obtain ⟨ihm, ihn⟩ := ih s2 (m0 ++ [(r.user_id, freshUid s.nextUid)]) hrest
      rw [List.foldl_cons, hstep]
      constructor
      · rw [ihm, hnext, usersEntries, hr]
        simp [List.append_assoc]
      · rw [ihn, hnext]
        simp [hr, List.filter_cons]
        omega

/-- C6 (amended): under unique natural keys, the mapping `_load_users`
returns has exactly one entry per row that did not error — keyed by
the row's natural key, valued by a service-assigned uid — and the uids
are unique within the run; the processed and skipped counts are logged
(not returned — the return value is the mapping alone). -/
theorem c6_entity_mapping (rows : List UserRow) (s : Svc)
    (hnd : (rows.map UserRow.user_id).Nodup) :
    ((loadUsers rows s).1.map Prod.fst =
      (rows.filter (fun r => r.influence_score.isSome)).map UserRow.user_id) ∧
    ((loadUsers rows s).1.map Prod.snd).Nodup ∧
    (∀ p ∈ (loadUsers rows s).1, ∃ k, p.2 = freshUid k) ∧
    ("INFO Successfully loaded " ++ toString (loadUsers rows s).1.length ++ " users")
      ∈ (loadUsers rows s).2.log ∧
    ((loadUsers rows s).1.length < rows.length →
      ("WARNING Failed to load " ++ toString (rows.length - (loadUsers rows s).1.length)
        ++ " users") ∈ (loadUsers rows s).2.log) := by
  have hnd' : ((([] : UidMap)).map Prod.fst ++ rows.map UserRow.user_id).Nodup := by
    simpa using hnd
  obtain ⟨hm, -⟩ := loadUsers_fold_spec rows s [] hnd'
  rcases hfold : rows.foldl loadUsersStep (s, ([] : UidMap)) with ⟨s1, m⟩
  rw [hfold] at hm
  simp only [List.nil_append] at hm
  have hfst : (loadUsers rows s).1 = m := by
    unfold loadUsers
    rw [hfold]
  have hlog : (loadUsers rows s).2.log =
      (if m.length < rows.length then
        s1.log ++ ["INFO Successfully loaded " ++ toString m.length ++ " users",
                   "WARNING Failed to load " ++ toString (rows.length - m.length) ++ " users"]
       else s1.log ++ ["INFO Successfully loaded " ++ toString m.length ++ " users"]) := by
    unfold loadUsers
    rw [hfold]
    by_cases hlen : m.length < rows.length <;> simp [hlen, Svc.logged]
  rw [hfst, hlog, hm]
  refine ⟨by rw [usersEntries_keys], usersEntries_vals_nodup rows s.nextUid, ?_, ?_, ?_⟩
  · intro p hp
    obtain ⟨k, -, he⟩ := usersEntries_val_is_fresh rows s.nextUid p hp
    exact ⟨k, he⟩
  · by_cases hlen : (usersEntries s.nextUid rows).length < rows.length <;> simp [hlen]
  · intro hlen
    simp [hlen]

theorem c6_entity_mapping_witness :
    (([⟨"u1", "a", "e", "b", "d", false, some 1, none⟩,
       ⟨"u2", "a", "e", "b", "d", false, none, none⟩] : List UserRow).map
        UserRow.user_id).Nodup ∧
    ((loadUsers [⟨"u1", "a", "e", "b", "d", false, some 1, none⟩,
        ⟨"u2", "a", "e", "b", "d", false, none, none⟩] Svc.init).1.map Prod.fst =
      (([⟨"u1", "a", "e", "b", "d", false, some 1, none⟩,
       ⟨"u2", "a", "e", "b", "d", false, none, none⟩] : List UserRow).filter
        (fun r => r.influence_score.isSome)).map UserRow.user_id) := by
  refine ⟨by decide, ?_⟩
  exact (c6_entity_mapping
    [⟨"u1", "a", "e", "b", "d", false, some 1, none⟩,
     ⟨"u2", "a", "e", "b", "d", false, none, none⟩] Svc.init (by decide)).1

/-- C6 counterexample: the value `_load_users` returns is the mapping
alone, so it cannot carry the processed/skipped counts: two inputs
with different skip counts (0 versus 1) return identical values. -/
theorem c6_counterexample :
    (loadUsers [⟨"u1", "a", "e", "b", "d", false, some 1, none⟩] Svc.init).1 =
      (loadUsers [⟨"u0", "a", "e", "b", "d", false, none, none⟩,
                  ⟨"u1", "a", "e", "b", "d", false, some 1, none⟩] Svc.init).1 ∧
    ([(⟨"u1", "a", "e", "b", "d", false, some 1, none⟩ : UserRow)].length -
      (loadUsers [⟨"u1", "a", "e", "b", "d", false, some 1, none⟩] Svc.init).1.length = 0) ∧
    ([(⟨"u0", "a", "e", "b", "d", false, none, none⟩ : UserRow),
      ⟨"u1", "a", "e", "b", "d", false, some 1, none⟩].length -
      (loadUsers [⟨"u0", "a", "e", "b", "d", false, none, none⟩,
                  ⟨"u1", "a", "e", "b", "d", false, some 1, none⟩] Svc.init).1.length = 1) := by
  decide

/-! ## Which mutations each loader issues -/

theorem mutType_typed (t : String) (rest : MutData) :
    mutType (("dgraph.type", FVal.s t) :: rest) = some t := by
  simp [mutType, List.find?]

/-- Any fold whose step either leaves the mutation list alone or
appends one mutation satisfying `P` only appends mutations
satisfying `P`. -/
theorem foldl_muts_spec {β : Type} (step : Svc → β → Svc) (P : MutData → Prop)
    (hstep : ∀ (s : Svc) (r : β),
      (step s r).muts = s.muts ∨ ∃ e, (step s r).muts = s.muts ++ [e] ∧ P e)
    (rows : List β) : ∀ s : Svc,
    ∃ new, (rows.foldl step s).muts = s.muts ++ new ∧ ∀ d ∈ new, P d := by
  induction rows with
  | nil => intro s; exact ⟨[], by simp, by simp⟩
  | cons r rest ih =>
    intro s
    obtain ⟨new, hmuts, hall⟩ := ih (step s r)
    rcases hstep s r with h | ⟨e, he, hP⟩
    · exact ⟨new, by rw [List.foldl_cons, hmuts, h], hall⟩
    · refine ⟨e :: new, ?_, ?_⟩
      · rw [List.foldl_cons, hmuts, he, List.append_assoc]
        rfl
      · intro d hd
        rcases List.mem_cons.1 hd with rfl | hd'
        · exact hP
        · exact hall d hd'

/-- Same, for the folds that also accumulate a uid mapping. -/
theorem foldl_pair_muts_spec {β : Type} (step : (Svc × UidMap) → β → (Svc × UidMap))
    (P : MutData → Prop)
    (hstep : ∀ (a : Svc × UidMap) (r : β),
      (step a r).1.muts = a.1.muts ∨ ∃ e, (step a r).1.muts = a.1.muts ++ [e] ∧ P e)
    (rows : List β) : ∀ a : Svc × UidMap,
    ∃ new, (rows.foldl step a).1.muts = a.1.muts ++ new ∧ ∀ d ∈ new, P d := by
  induction rows with
  | nil => intro a; exact ⟨[], by simp, by simp⟩
  | cons r rest ih =>
    intro a
    obtain ⟨new, hmuts, hall⟩ := ih (step a r)
    rcases hstep a r with h | ⟨e, he, hP⟩
    · exact ⟨new, by rw [List.foldl_cons, hmuts, h], hall⟩
    · refine ⟨e :: new, ?_, ?_⟩
      · rw [List.foldl_cons, hmuts, he, List.append_assoc]
        rfl
      · intro d hd
        rcases List.mem_cons.1 hd with rfl | hd'
        · exact hP
        · exact hall d hd'

theorem loadUsers_muts (rows : List UserRow) (s : Svc) :
    ∃ new, (loadUsers rows s).2.muts = s.muts ++ new ∧
      ∀ d ∈ new, mutType d = some "User" := by
  have hstep : ∀ (a : Svc × UidMap) (r : UserRow),
      (loadUsersStep a r).1.muts = a.1.muts ∨
      ∃ e, (loadUsersStep a r).1.muts = a.1.muts ++ [e] ∧ mutType e = some "User" := by
    intro a r
    rcases hr : r.influence_score with - | isc
    · left; simp [loadUsersStep, hr, Svc.logged]
    · rcases hl : r.location with - | locStr
      · right
        exact ⟨userBaseData r isc, by simp [loadUsersStep, hr, hl, createMutation, Svc.logged],
          mutType_typed "User" _⟩
      · rcases hp : parseLoc locStr with - | ⟨lat, lon⟩
        · right
          exact ⟨userBaseData r isc,
            by simp [loadUsersStep, hr, hl, hp, createMutation, Svc.logged],
            mutType_typed "User" _⟩
        · right
          exact ⟨userBaseData r isc ++ [("location", FVal.point lon lat)],
            by simp [loadUsersStep, hr, hl, hp, createMutation, Svc.logged],
            by simpa [userBaseData] using mutType_typed "User" _⟩
  obtain ⟨new, hmuts, hall⟩ := foldl_pair_muts_spec loadUsersStep _ hstep rows (s, [])
  refine ⟨new, ?_, hall⟩
  rcases hfold : rows.foldl loadUsersStep (s, ([] : UidMap)) with ⟨s1, m⟩
  rw [hfold] at hmuts
  have : (loadUsers rows s).2.muts = s1.muts := by
    unfold loadUsers
    rw [hfold]
    by_cases hlen : m.length < rows.length <;> simp [hlen, Svc.logged]
  rw [this]
  exact hmuts

theorem loadComments_muts (rows : List CommentRow) (um pm : UidMap) (s : Svc) :
    ∃ new, (loadComments rows um pm s).2.muts = s.muts ++ new ∧
      ∀ d ∈ new, mutType d = some "Comment" := by
  have hstep : ∀ (a : Svc × UidMap) (r : CommentRow),
      (loadCommentsStep um pm a r).1.muts = a.1.muts ∨
      ∃ e, (loadCommentsStep um pm a r).1.muts = a.1.muts ++ [e] ∧
        mutType e = some "Comment" := by
    intro a r
    rcases h1 : aget? um r.author_id with - | auid
    · left; simp [loadCommentsStep, h1, Svc.logged]
    · rcases h2 : aget? pm r.post_id with - | puid
      · left; simp [loadCommentsStep, h1, h2, Svc.logged]
      · rcases h3 : r.sentiment_score with - | ss
        · left; simp [loadCommentsStep, h1, h2, h3, Svc.logged]
        · rcases h4 : r.reply_count with - | rc
          · left; simp [loadCommentsStep, h1, h2, h3, h4, Svc.logged]
          · right
            refine ⟨[("dgraph.type", FVal.s "Comment"), ("content", FVal.s r.content),
                ("timestamp", FVal.s r.timestamp), ("sentimentScore", FVal.q ss),
                ("replyCount", FVal.i rc), ("author", FVal.uidRef auid),
                ("post", FVal.uidRef puid)], ?_, mutType_typed "Comment" _⟩
            simp [loadCommentsStep, h1, h2, h3, h4, createMutation, Svc.logged]
  obtain ⟨new, hmuts, hall⟩ := foldl_pair_muts_spec (loadCommentsStep um pm) _ hstep rows (s, [])
  refine ⟨new, ?_, hall⟩
  rcases hfold : rows.foldl (loadCommentsStep um pm) (s, ([] : UidMap)) with ⟨s1, m⟩
  rw [hfold] at hmuts
  have : (loadComments rows um pm s).2.muts = s1.muts := by
    unfold loadComments
    rw [hfold]
    by_cases hlen : m.length < rows.length <;> simp [hlen, Svc.logged]
  rw [this]
  exact hmuts

theorem loadCommunitiesGo_muts (rows : List CommunityRow) : ∀ (s : Svc) (m : UidMap),
    ∃ new, (loadCommunitiesGo s m rows).svc.muts = s.muts ++ new ∧
      ∀ d ∈ new, mutType d = some "Community" := by
  induction rows with
  | nil => intro s m; exact ⟨[], by simp [loadCommunitiesGo, LoadResult.svc], by simp⟩
  | cons r rest ih =>
    intro s m
    rcases hmc : r.member_count with - | mc
    · exact ⟨[], by simp [loadCommunitiesGo, hmc, LoadResult.svc], by simp⟩
    · obtain ⟨new, hmuts, hall⟩ := ih
        { s with nextUid := s.nextUid + 1,
                 muts := s.muts ++ [[("dgraph.type", FVal.s "Community"), ("name", FVal.s r.name),
                   ("category", FVal.s r.category), ("memberCount", FVal.i mc),
                   ("community_id", FVal.s r.community_id)]] }
        (aset m r.community_id (freshUid s.nextUid))
      refine ⟨[("dgraph.type", FVal.s "Community"), ("name", FVal.s r.name),
          ("category", FVal.s r.category), ("memberCount", FVal.i mc),
          ("community_id", FVal.s r.community_id)] :: new, ?_, ?_⟩
      · rw [show loadCommunitiesGo s m (r :: rest) =
          loadCommunitiesGo
            { s with nextUid := s.nextUid + 1,
                     muts := s.muts ++ [[("dgraph.type", FVal.s "Community"),
                       ("name", FVal.s r.name), ("category", FVal.s r.category),
                       ("memberCount", FVal.i mc), ("community_id", FVal.s r.community_id)]] }
            (aset m r.community_id (freshUid s.nextUid)) rest by
            simp [loadCommunitiesGo, hmc, createMutation]]
        rw [hmuts]
        simp
      · intro d hd
        rcases List.mem_cons.1 hd with rfl | hd'
        · exact mutType_typed "Community" _
        · exact hall d hd'

theorem loadPostsGo_muts (rows : List PostRow) : ∀ (um : UidMap) (s : Svc) (m : UidMap),
    ∃ new, (loadPostsGo um s m rows).svc.muts = s.muts ++ new ∧
      ∀ d ∈ new, mutType d = some "Post" := by
  induction rows with
  | nil => intro um s m; exact ⟨[], by simp [loadPostsGo, LoadResult.svc], by simp⟩
  | cons r rest ih =>
    intro um s m
    rcases ha : aget? um r.author_id with - | auid
    · obtain ⟨new, hmuts, hall⟩ := ih um
        (s.logged ("WARNING Author ID " ++ r.author_id ++
          " not found in user UID map. Skipping post.")) m
      refine ⟨new, ?_, hall⟩
      rw [show loadPostsGo um s m (r :: rest) =
        loadPostsGo um (s.logged ("WARNING Author ID " ++ r.author_id ++
          " not found in user UID map. Skipping post.")) m rest by
          simp [loadPostsGo, ha]]
      rw [hmuts]
      simp [Svc.logged]
    · rcases hvc : r.view_count with - | vc
      · exact ⟨[], by simp [loadPostsGo, ha, hvc, LoadResult.svc], by simp⟩
      · rcases hes : r.engagement_score with - | es
        · exact ⟨[], by simp [loadPostsGo, ha, hvc, hes, LoadResult.svc], by simp⟩
        · obtain ⟨new, hmuts, hall⟩ := ih um
            { s with nextUid := s.nextUid + 1,
                     muts := s.muts ++ [[("dgraph.type", FVal.s "Post"),
                       ("content", FVal.s r.content), ("timestamp", FVal.s r.timestamp),
                       ("viewCount", FVal.i vc), ("engagementScore", FVal.q es),
                       ("author", FVal.uidRef auid)]] }
            (aset m r.post_id (freshUid s.nextUid))
          refine ⟨[("dgraph.type", FVal.s "Post"), ("content", FVal.s r.content),
              ("timestamp", FVal.s r.timestamp), ("viewCount", FVal.i vc),
              ("engagementScore", FVal.q es), ("author", FVal.uidRef auid)] :: new, ?_, ?_⟩
          · rw [show loadPostsGo um s m (r :: rest) =
              loadPostsGo um
                { s with nextUid := s.nextUid + 1,
                         muts := s.muts ++ [[("dgraph.type", FVal.s "Post"),
                           ("content", FVal.s r.content), ("timestamp", FVal.s r.timestamp),
                           ("viewCount", FVal.i vc), ("engagementScore", FVal.q es),
                           ("author", FVal.uidRef auid)]] }
                (aset m r.post_id (freshUid s.nextUid)) rest by
                simp [loadPostsGo, ha, hvc, hes, createMutation]]
            rw [hmuts]
            simp
          · intro d hd
            rcases List.mem_cons.1 hd with rfl | hd'
            · exact mutType_typed "Post" _
            · exact hall d hd'

theorem loadHashtagsGo_muts (rows : List HashtagRow) : ∀ (s : Svc) (m : UidMap),
    ∃ new, (loadHashtagsGo s m rows).svc.muts = s.muts ++ new ∧
      ∀ d ∈ new, mutType d = some "Hashtag" := by
  induction rows with
  | nil => intro s m; exact ⟨[], by simp [loadHashtagsGo, LoadResult.svc], by simp⟩
  | cons r rest ih =>
    intro s m
    rcases huc : r.use_count with - | uc
    · exact ⟨[], by simp [loadHashtagsGo, huc, LoadResult.svc], by simp⟩
    · rcases hts : r.trend_score with - | ts
      · exact ⟨[], by simp [loadHashtagsGo, huc, hts, LoadResult.svc], by simp⟩
      · obtain ⟨new, hmuts, hall⟩ := ih
          { s with nextUid := s.nextUid + 1,
                   muts := s.muts ++ [[("dgraph.type", FVal.s "Hashtag"),
                     ("hashtag_id", FVal.s r.hashtag_id), ("name", FVal.s r.name),
                     ("useCount", FVal.i uc), ("trendScore", FVal.q ts)]] }
          (aset m r.hashtag_id (freshUid s.nextUid))
        refine ⟨[("dgraph.type", FVal.s "Hashtag"), ("hashtag_id", FVal.s r.hashtag_id),
            ("name", FVal.s r.name), ("useCount", FVal.i uc),
            ("trendScore", FVal.q ts)] :: new, ?_, ?_⟩
        · rw [show loadHashtagsGo s m (r :: rest) =
            loadHashtagsGo
              { s with nextUid := s.nextUid + 1,
                       muts := s.muts ++ [[("dgraph.type", FVal.s "Hashtag"),
                         ("hashtag_id", FVal.s r.hashtag_id), ("name", FVal.s r.name),
                         ("useCount", FVal.i uc), ("trendScore", FVal.q ts)]] }
              (aset m r.hashtag_id (freshUid s.nextUid)) rest by
              simp [loadHashtagsGo, huc, hts, createMutation]]
          rw [hmuts]
          simp
        · intro d hd
          rcases List.mem_cons.1 hd with rfl | hd'
          · exact mutType_typed "Hashtag" _
          · exact hall d hd'

theorem mutType_edge (a b p : String) (hp : p ≠ "dgraph.type") :
    mutType [("uid", FVal.s a), (p, FVal.uidRef b)] = none := by
  simp [mutType, List.find?, hp]

theorem edgePred_edge (a b p : String) :
    edgePred [("uid", FVal.s a), (p, FVal.uidRef b)] = some p := rfl

theorem loadFollows_muts (rows : List FollowRow) (um : UidMap) (s : Svc) :
    ∃ new, (loadFollows rows um s).muts = s.muts ++ new ∧
      ∀ d ∈ new, mutType d = none ∧ edgePred d = some "follows" := by
  refine foldl_muts_spec (loadFollowsStep um) _ ?_ rows s
  intro s r
  rcases h1 : aget? um r.follower_id with - | fu
  · left; simp [loadFollowsStep, h1, Svc.logged]
  · rcases h2 : aget? um r.followed_id with - | tu
    · left; simp [loadFollowsStep, h1, h2, Svc.logged]
    · right
      exact ⟨[("uid", FVal.s fu), ("follows", FVal.uidRef tu)],
        by simp [loadFollowsStep, h1, h2, createMutation],
        mutType_edge fu tu "follows" (by decide), edgePred_edge fu tu "follows"⟩

theorem loadCommunityMembers_muts (rows : List MemberRow) (cm um : UidMap) (s : Svc) :
    ∃ new, (loadCommunityMembers rows cm um s).muts = s.muts ++ new ∧
      ∀ d ∈ new, mutType d = none ∧ edgePred d = some "members" := by
  refine foldl_muts_spec (loadMembersStep cm um) _ ?_ rows s
  intro s r
  rcases h1 : aget? cm r.community_id with - | cu
  · left; simp [loadMembersStep, h1, Svc.logged]
  · rcases h2 : aget? um r.user_id with - | mu
    · left; simp [loadMembersStep, h1, h2, Svc.logged]
    · right
      exact ⟨[("uid", FVal.s cu), ("members", FVal.uidRef mu)],
        by simp [loadMembersStep, h1, h2, createMutation],
        mutType_edge cu mu "members" (by decide), edgePred_edge cu mu "members"⟩

theorem loadPostHashtags_muts (rows : List PostHashtagRow) (pm hm : UidMap) (s : Svc) :
    ∃ new, (loadPostHashtags rows pm hm s).muts = s.muts ++ new ∧
      ∀ d ∈ new, mutType d = none ∧ edgePred d = some "hashtags" := by
  refine foldl_muts_spec (loadPostHashtagsStep pm hm) _ ?_ rows s
  intro s r
  rcases h1 : aget? pm r.post_id with - | pu
  · left; simp [loadPostHashtagsStep, h1, Svc.logged]
  · rcases h2 : aget? hm r.hashtag_id with - | hu
    · left; simp [loadPostHashtagsStep, h1, h2, Svc.logged]
    · right
      exact ⟨[("uid", FVal.s pu), ("hashtags", FVal.uidRef hu)],
        by simp [loadPostHashtagsStep, h1, h2, createMutation],
        mutType_edge pu hu "hashtags" (by decide), edgePred_edge pu hu "hashtags"⟩

theorem loadPostLikes_muts (rows : List LikeRow) (pm um : UidMap) (s : Svc) :
    ∃ new, (loadPostLikes rows pm um s).muts = s.muts ++ new ∧
      ∀ d ∈ new, mutType d = none ∧ edgePred d = some "likedBy" := by
  refine foldl_muts_spec (loadPostLikesStep pm um) _ ?_ rows s
  intro s r
  rcases h1 : aget? pm r.post_id with - | pu
  · left; simp [loadPostLikesStep, h1, Svc.logged]
  · rcases h2 : aget? um r.user_id with - | uu
    · left; simp [loadPostLikesStep, h1, h2, Svc.logged]
    · right
      exact ⟨[("uid", FVal.s pu), ("likedBy", FVal.uidRef uu)],
        by simp [loadPostLikesStep, h1, h2, createMutation],
        mutType_edge pu uu "likedBy" (by decide), edgePred_edge pu uu "likedBy"⟩

/-- C5 (amended): in a run of `load_data` that completes, the
mutations are issued in segments: User nodes, then Community nodes,
then Post nodes, then Hashtag nodes (hashtags come AFTER posts), then
Comment nodes, and only then the relationship edges, in file order
follows, members, hashtags, likedBy — so every entity is created
before any relationship load reads its mapping. -/
theorem c5_load_order (files : Files) (s0 : Svc)
    (h : (loadData files s0).raised = false) :
    ∃ u c p ht cm f mm ph pl : List MutData,
      (loadData files s0).svc.muts =
        s0.muts ++ u ++ c ++ p ++ ht ++ cm ++ f ++ mm ++ ph ++ pl ∧
      (∀ d ∈ u, mutType d = some "User") ∧
      (∀ d ∈ c, mutType d = some "Community") ∧
      (∀ d ∈ p, mutType d = some "Post") ∧
      (∀ d ∈ ht, mutType d = some "Hashtag") ∧
      (∀ d ∈ cm, mutType d = some "Comment") ∧
      (∀ d ∈ f, mutType d = none ∧ edgePred d = some "follows") ∧
      (∀ d ∈ mm, mutType d = none ∧ edgePred d = some "members") ∧
      (∀ d ∈ ph, mutType d = none ∧ edgePred d = some "hashtags") ∧
      (∀ d ∈ pl, mutType d = none ∧ edgePred d = some "likedBy") := by
  rcases hfu : files.user with - | userRows
  · simp [loadData, hfu, LoadResult.raised] at h
  rcases hLU : loadUsers userRows s0 with ⟨userMap, s1⟩
  rcases hfc : files.communities with - | communityRows
  · simp only [loadData, hfu, hLU, hfc] at h
    simp [LoadResult.raised] at h
  rcases hLC : loadCommunities communityRows
      (s1.logged ("INFO Loaded " ++ toString userMap.length ++ " users")) with
    ⟨communityMap, s2⟩ | se
  case err =>
    simp only [loadData, hfu, hLU, hfc, hLC] at h
    simp [LoadResult.raised] at h
  rcases hfp : files.post with - | postRows
  · simp only [loadData, hfu, hLU, hfc, hLC, hfp] at h
    simp [LoadResult.raised] at h
  rcases hLP : loadPosts postRows userMap
      (s2.logged ("INFO Loaded " ++ toString communityMap.length ++ " communities")) with
    ⟨postMap, s3⟩ | se
  case err =>
    simp only [loadData, hfu, hLU, hfc, hLC, hfp, hLP] at h
    simp [LoadResult.raised] at h
  rcases hfh : files.hashtags with - | hashtagRows
  · simp only [loadData, hfu, hLU, hfc, hLC, hfp, hLP, hfh] at h
    simp [LoadResult.raised] at h
  rcases hLH : loadHashtags hashtagRows
      (s3.logged ("INFO Loaded " ++ toString postMap.length ++ " posts")) with
    ⟨hashtagMap, s4⟩ | se
  case err =>
    simp only [loadData, hfu, hLU, hfc, hLC, hfp, hLP, hfh, hLH] at h
    simp [LoadResult.raised] at h
  rcases hfcm : files.comments with - | commentRows
  · simp only [loadData, hfu, hLU, hfc, hLC, hfp, hLP, hfh, hLH, hfcm] at h
    simp [LoadResult.raised] at h
  rcases hLCm : loadComments commentRows userMap postMap
      (s4.logged ("INFO Loaded " ++ toString hashtagMap.length ++ " hashtags")) with
    ⟨commentMap, s5⟩
  rcases hff : files.user_follows with - | followRows
  · simp only [loadData, hfu, hLU, hfc, hLC, hfp, hLP, hfh, hLH, hfcm, hLCm, hff] at h
    simp [LoadResult.raised] at h
  rcases hfm : files.community_members with - | memberRows
  · simp only [loadData, hfu, hLU, hfc, hLC, hfp, hLP, hfh, hLH, hfcm, hLCm, hff, hfm] at h
    simp [LoadResult.raised] at h
  rcases hfph : files.post_hashtags with - | postHashtagRows
  · simp only [loadData, hfu, hLU, hfc, hLC, hfp, hLP, hfh, hLH, hfcm, hLCm, hff, hfm,
      hfph] at h
    simp [LoadResult.raised] at h
  rcases hfpl : files.post_likes with - | likeRows
  · simp only [loadData, hfu, hLU, hfc, hLC, hfp, hLP, hfh, hLH, hfcm, hLCm, hff, hfm,
      hfph, hfpl] at h
    simp [LoadResult.raised] at h
  simp only [loadData, hfu, hLU, hfc, hLC, hfp, hLP, hfh, hLH, hfcm, hLCm, hff, hfm,
    hfph, hfpl, LoadResult.svc]
  obtain ⟨u, hu, hu2⟩ := loadUsers_muts userRows s0
  rw [hLU] at hu
  have hu' : s1.muts = s0.muts ++ u := hu
  obtain ⟨c, hc, hc2⟩ := loadCommunitiesGo_muts communityRows
    (s1.logged ("INFO Loaded " ++ toString userMap.length ++ " users")) []
  have hLC' : loadCommunitiesGo
      (s1.logged ("INFO Loaded " ++ toString userMap.length ++ " users")) [] communityRows =
      LoadResult.ok communityMap s2 := hLC
  rw [hLC'] at hc
  have hc' : s2.muts = s1.muts ++ c := hc
  obtain ⟨p, hp, hp2⟩ := loadPostsGo_muts postRows userMap
    (s2.logged ("INFO Loaded " ++ toString communityMap.length ++ " communities")) []
  have hLP' : loadPostsGo userMap
      (s2.logged ("INFO Loaded " ++ toString communityMap.length ++ " communities")) [] postRows =
      LoadResult.ok postMap s3 := hLP
  rw [hLP'] at hp
  have hp' : s3.muts = s2.muts ++ p := hp
  obtain ⟨ht, hht, hht2⟩ := loadHashtagsGo_muts hashtagRows
    (s3.logged ("INFO Loaded " ++ toString postMap.length ++ " posts")) []
  have hLH' : loadHashtagsGo
      (s3.logged ("INFO Loaded " ++ toString postMap.length ++ " posts")) [] hashtagRows =
      LoadResult.ok hashtagMap s4 := hLH
  rw [hLH'] at hht
  have hht' : s4.muts = s3.muts ++ ht := hht
  obtain ⟨cm, hcm, hcm2⟩ := loadComments_muts commentRows userMap postMap
    (s4.logged ("INFO Loaded " ++ toString hashtagMap.length ++ " hashtags"))
  rw [hLCm] at hcm
  have hcm' : s5.muts = s4.muts ++ cm := hcm
  obtain ⟨f, hf, hf2⟩ := loadFollows_muts followRows userMap
    (s5.logged ("INFO Loaded " ++ toString commentMap.length ++ " comments"))
  obtain ⟨mm, hmm, hmm2⟩ := loadCommunityMembers_muts memberRows communityMap userMap
    (loadFollows followRows userMap
      (s5.logged ("INFO Loaded " ++ toString commentMap.length ++ " comments")))
  obtain ⟨ph, hph, hph2⟩ := loadPostHashtags_muts postHashtagRows postMap hashtagMap
    (loadCommunityMembers memberRows communityMap userMap
      (loadFollows followRows userMap
        (s5.logged ("INFO Loaded " ++ toString commentMap.length ++ " comments"))))
  obtain ⟨pl, hpl, hpl2⟩ := loadPostLikes_muts likeRows postMap userMap
    (loadPostHashtags postHashtagRows postMap hashtagMap
      (loadCommunityMembers memberRows communityMap userMap
        (loadFollows followRows userMap
          (s5.logged ("INFO Loaded " ++ toString commentMap.length ++ " comments")))))
  refine ⟨u, c, p, ht, cm, f, mm, ph, pl, ?_, hu2, hc2, hp2, hht2, hcm2, hf2, hmm2, hph2, hpl2⟩
  rw [hpl, hph, hmm, hf]
  have hlog5 : (Svc.logged s5
      ("INFO Loaded " ++ toString commentMap.length ++ " comments")).muts = s5.muts := rfl
  rw [hlog5, hcm', hht', hp', hc', hu']

theorem c5_load_order_witness :
    ((loadData ⟨some [⟨"u1", "a", "e", "b", "d", false, some 1, none⟩],
        some [⟨"c1", "Tech", "tech", some 3⟩],
        some [⟨"p1", "u1", "hello", "t", some 10, some 2⟩],
        some [⟨"h1", "tag", some 5, some 8⟩],
        some [⟨"cm1", "u1", "p1", "nice", "t", some 1, some 0⟩],
        some [⟨"u1", "u1"⟩], some [⟨"c1", "u1"⟩], some [⟨"p1", "h1"⟩],
        some [⟨"p1", "u1"⟩]⟩ Svc.init).raised = false) ∧
    (∃ u c p ht cm f mm ph pl : List MutData,
      (loadData ⟨some [⟨"u1", "a", "e", "b", "d", false, some 1, none⟩],
        some [⟨"c1", "Tech", "tech", some 3⟩],
        some [⟨"p1", "u1", "hello", "t", some 10, some 2⟩],
        some [⟨"h1", "tag", some 5, some 8⟩],
        some [⟨"cm1", "u1", "p1", "nice", "t", some 1, some 0⟩],
        some [⟨"u1", "u1"⟩], some [⟨"c1", "u1"⟩], some [⟨"p1", "h1"⟩],
        some [⟨"p1", "u1"⟩]⟩ Svc.init).svc.muts =
        Svc.init.muts ++ u ++ c ++ p ++ ht ++ cm ++ f ++ mm ++ ph ++ pl ∧
      (∀ d ∈ u, mutType d = some "User") ∧
      (∀ d ∈ c, mutType d = some "Community") ∧
      (∀ d ∈ p, mutType d = some "Post") ∧
      (∀ d ∈ ht, mutType d = some "Hashtag") ∧
      (∀ d ∈ cm, mutType d = some "Comment") ∧
      (∀ d ∈ f, mutType d = none ∧ edgePred d = some "follows") ∧
      (∀ d ∈ mm, mutType d = none ∧ edgePred d = some "members") ∧
      (∀ d ∈ ph, mutType d = none ∧ edgePred d = some "hashtags") ∧
      (∀ d ∈ pl, mutType d = none ∧ edgePred d = some "likedBy")) :=
  ⟨by decide,
   c5_load_order ⟨some [⟨"u1", "a", "e", "b", "d", false, some 1, none⟩,],
     some [⟨"c1", "Tech", "tech", some 3⟩],
     some [⟨"p1", "u1", "hello", "t", some 10, some 2⟩],
     some [⟨"h1", "tag", some 5, some 8⟩],
     some [⟨"cm1", "u1", "p1", "nice", "t", some 1, some 0⟩],
     some [⟨"u1", "u1"⟩], some [⟨"c1", "u1"⟩], some [⟨"p1", "h1"⟩],
     some [⟨"p1", "u1"⟩]⟩ Svc.init (by decide)⟩

/-- C5 counterexample: a completed run over one user, one post (by
that user) and one hashtag issues the Post node creation BEFORE the
Hashtag node creation — the orchestrator loads hashtags after posts,
not before, contradicting the claimed order. -/
theorem c5_counterexample :
    ((loadData ⟨some [⟨"u1", "a", "e", "b", "d", false, some 1, none⟩],
        some [], some [⟨"p1", "u1", "hello", "t", some 10, some 2⟩],
        some [⟨"h1", "tag", some 5, some 8⟩], some [], some [], some [], some [],
        some []⟩ Svc.init).svc.muts.map mutType) =
      [some "User", some "Post", some "Hashtag"] := by
  decide

/-- C3 (amended): a failure reading the `user_follows.csv` relationship
file aborts the whole run and propagates, exactly like an entity-file
failure — `load_data` wraps every load in one `try` that re-raises —
and the remaining relationship files are never attempted: the outcome
is identical whatever `community_members`, `post_hashtags`, and
`post_likes` hold. -/
theorem c3_relationship_file_failure_aborts (files : Files) (s : Svc)
    (h : files.user_follows = none)
    (X : Option (List MemberRow)) (Y : Option (List PostHashtagRow))
    (Z : Option (List LikeRow)) :
    (loadData files s).raised = true ∧
    loadData files s =
      loadData { files with community_members := X, post_hashtags := Y, post_likes := Z } s := by
  rcases hfu : files.user with - | userRows
  · exact ⟨by simp [loadData, hfu, LoadResult.raised], by simp [loadData, hfu]⟩
  rcases hLU : loadUsers userRows s with ⟨userMap, s1⟩
  rcases hfc : files.communities with - | communityRows
  · exact ⟨by simp [loadData, hfu, hLU, hfc, LoadResult.raised],
      by simp [loadData, hfu, hLU, hfc]⟩
  rcases hLC : loadCommunities communityRows
      (s1.logged ("INFO Loaded " ++ toString userMap.length ++ " users")) with
    ⟨communityMap, s2⟩ | se
  case err =>
    exact ⟨by simp [loadData, hfu, hLU, hfc, hLC, LoadResult.raised],
      by simp [loadData, hfu, hLU, hfc, hLC]⟩
  rcases hfp : files.post with - | postRows
  · exact ⟨by simp [loadData, hfu, hLU, hfc, hLC, hfp, LoadResult.raised],
      by simp [loadData, hfu, hLU, hfc, hLC, hfp]⟩
  rcases hLP : loadPosts postRows userMap
      (s2.logged ("INFO Loaded " ++ toString communityMap.length ++ " communities")) with
    ⟨postMap, s3⟩ | se
  case err =>
    exact ⟨by simp [loadData, hfu, hLU, hfc, hLC, hfp, hLP, LoadResult.raised],
      by simp [loadData, hfu, hLU, hfc, hLC, hfp, hLP]⟩
  rcases hfh : files.hashtags with - | hashtagRows
  · exact ⟨by simp [loadData, hfu, hLU, hfc, hLC, hfp, hLP, hfh, LoadResult.raised],
      by simp [loadData, hfu, hLU, hfc, hLC, hfp, hLP, hfh]⟩
  rcases hLH : loadHashtags hashtagRows
      (s3.logged ("INFO Loaded " ++ toString postMap.length ++ " posts")) with
    ⟨hashtagMap, s4⟩ | se
  case err =>
    exact ⟨by simp [loadData, hfu, hLU, hfc, hLC, hfp, hLP, hfh, hLH, LoadResult.raised],
      by simp [loadData, hfu, hLU, hfc, hLC, hfp, hLP, hfh, hLH]⟩
  rcases hfcm : files.comments with - | commentRows
  · exact ⟨by simp [loadData, hfu, hLU, hfc, hLC, hfp, hLP, hfh, hLH, hfcm,
      LoadResult.raised],
      by simp [loadData, hfu, hLU, hfc, hLC, hfp, hLP, hfh, hLH, hfcm]⟩
  rcases hLCm : loadComments commentRows userMap postMap
      (s4.logged ("INFO Loaded " ++ toString hashtagMap.length ++ " hashtags")) with
    ⟨commentMap, s5⟩
  exact ⟨by simp [loadData, hfu, hLU, hfc, hLC, hfp, hLP, hfh, hLH, hfcm, hLCm, h,
    LoadResult.raised],
    by simp [loadData, hfu, hLU, hfc, hLC, hfp, hLP, hfh, hLH, hfcm, hLCm, h]⟩

theorem c3_relationship_file_failure_aborts_witness :
    ((⟨some [⟨"u1", "a", "e", "b", "d", false, some 1, none⟩],
        some [⟨"c1", "Tech", "tech", some 3⟩], some [], some [], some [],
        none, some [⟨"c1", "u1"⟩], some [], some []⟩ : Files).user_follows = none) ∧
    ((loadData ⟨some [⟨"u1", "a", "e", "b", "d", false, some 1, none⟩],
        some [⟨"c1", "Tech", "tech", some 3⟩], some [], some [], some [],
        none, some [⟨"c1", "u1"⟩], some [], some []⟩ Svc.init).raised = true ∧
      loadData (⟨some [⟨"u1", "a", "e", "b", "d", false, some 1, none⟩],
        some [⟨"c1", "Tech", "tech", some 3⟩], some [], some [], some [],
        none, some [⟨"c1", "u1"⟩], some [], some []⟩ : Files) Svc.init =
      loadData { (⟨some [⟨"u1", "a", "e", "b", "d", false, some 1, none⟩],
          some [⟨"c1", "Tech", "tech", some 3⟩], some [], some [], some [],
          none, some [⟨"c1", "u1"⟩], some [], some []⟩ : Files) with
          community_members := some [], post_hashtags := some [],
          post_likes := some [] } Svc.init) :=
  ⟨rfl,
   c3_relationship_file_failure_aborts
     ⟨some [⟨"u1", "a", "e", "b", "d", false, some 1, none⟩],
      some [⟨"c1", "Tech", "tech", some 3⟩], some [], some [], some [],
      none, some [⟨"c1", "u1"⟩], some [], some []⟩ Svc.init rfl
     (some []) (some []) (some [])⟩

/-- C3 counterexample: with a readable, fully resolvable
`community_members` row but an unreadable `user_follows.csv`, the run
aborts (raises) and no `members` edge is ever issued — the remaining
relationship files are NOT attempted, contradicting the claimed
file-level failure isolation. -/
theorem c3_counterexample :
    (loadData ⟨some [⟨"u1", "a", "e", "b", "d", false, some 1, none⟩],
        some [⟨"c1", "Tech", "tech", some 3⟩], some [], some [], some [],
        none, some [⟨"c1", "u1"⟩], some [], some []⟩ Svc.init).raised = true ∧
    ((loadData ⟨some [⟨"u1", "a", "e", "b", "d", false, some 1, none⟩],
        some [⟨"c1", "Tech", "tech", some 3⟩], some [], some [], some [],
        none, some [⟨"c1", "u1"⟩], some [], some []⟩ Svc.init).svc.muts.map edgePred) =
      [none, none] := by
  constructor
  · decide
  · decide
